import Mathlib

/-!
Shallow embedding of the Cork cloud functions (src/config.js): the auth
middleware `verifyAuth`, the HTTP handlers `analyzeWineLabel`,
`searchWineImage` and `health`, and the JSON-extraction heuristic used by
the label-analysis handler.

External collaborators are modelled as oracles passed to the handlers:
  * `verify`  : the identity service (`admin.auth().verifyIdToken`);
    `none` means verification threw.
  * `modelApi` : the vision-model call (`openai.chat.completions.create`
    followed by reading `response.choices[0].message.content`); it receives
    the API key and the image URL (the remaining request fields - prompt,
    model name, `max_tokens` - are fixed constants of the source and are
    folded into the oracle).  `Except.error e` is a thrown upstream error
    whose `message` is `e`; `Except.ok c` is the textual reply.
  * `searchApi` : the image-search call (`fetch` on the custom-search URL
    followed by `response.json()`); it receives the key, the cx identifier
    and the composed search query (the URL is determined by exactly these
    three values, the rest of it being constant).  `Except.ok (some l)`
    means `data.items` was non-empty with first link `l`; `Except.ok none`
    means no items; `Except.error e` a thrown error with message `e`.
  * `parse` : `JSON.parse`; `none` means it threw.

Each handler returns the HTTP response together with the list of upstream
(paid-API) calls it performed, so that "invokes no upstream API" is the
statement that the list is empty.
-/

/-- JSON values, the shape of response bodies. -/
inductive Json where
  | null : Json
  | bool : Bool → Json
  | num : Int → Json
  | str : String → Json
  | arr : List Json → Json
  | obj : List (String × Json) → Json

/-- An HTTP response: status code, the headers set with `res.set`, and the
body (`none` for the empty `send("")` of the preflight branch). -/
structure HttpResponse where
  status : Nat
  headers : List (String × String)
  body : Option Json

/-- The three CORS headers both API handlers set unconditionally. -/
def corsHeaders : List (String × String) :=
  [("Access-Control-Allow-Origin", "*"),
   ("Access-Control-Allow-Methods", "POST, OPTIONS"),
   ("Access-Control-Allow-Headers", "Content-Type, Authorization")]

/-- JavaScript truthiness of a possibly-undefined string value
(`undefined` and `""` are falsy). -/
def truthy : Option String → Bool
  | none => false
  | some s => !(s = "")

/-- Character-list prefix test, the model of JS `String.prototype.startsWith`
(used by the source at the `Authorization` header and the `data:` URI checks). -/
def isPrefixList : List Char → List Char → Bool
  | [], _ => true
  | _ :: _, [] => false
  | p :: ps, c :: cs => p = c && isPrefixList ps cs

/-- JS `s.startsWith(pre)`. -/
def jsStartsWith (s pre : String) : Bool :=
  isPrefixList pre.data s.data

/-- JS `str.split("Bearer ")` on the character list: leftmost,
non-overlapping occurrences of the literal separator `"Bearer "`. -/
def splitBearer : List Char → List (List Char)
  | 'B' :: 'e' :: 'a' :: 'r' :: 'e' :: 'r' :: ' ' :: rest => [] :: splitBearer rest
  | c :: rest =>
    match splitBearer rest with
    | seg :: segs => (c :: seg) :: segs
    | [] => [[c]]
  | [] => [[]]

/-- The middleware token extraction, JS `authHeader.split("Bearer ")[1]`:
the element after the first separator occurrence. -/
def extractToken (h : String) : String :=
  String.mk ((splitBearer h.data).getD 1 [])

/-- Body of the 401 sent when the header is missing or lacks the prefix. -/
def noTokenBody : Json :=
  Json.obj [("error", Json.str "Unauthorized - No token provided")]

/-- Body of the 401 sent when `verifyIdToken` rejects the token. -/
def invalidTokenBody : Json :=
  Json.obj [("error", Json.str "Unauthorized - Invalid token")]

/-- The middleware `verifyAuth` (src/config.js lines 42-58): on failure it
sends a status and body (the caller has already set the headers) and
returns null, here `Except.error (status, body)`; on success it returns
the decoded token. -/
def verifyAuth {π : Type} (verify : String → Option π) (authHeader : Option String) :
    Except (Nat × Json) π :=
  match authHeader with
  | none => Except.error (401, noTokenBody)
  | some h =>
    if jsStartsWith h "Bearer " then
      match verify (extractToken h) with
      | some decodedToken => Except.ok decodedToken
      | none => Except.error (401, invalidTokenBody)
    else
      Except.error (401, noTokenBody)

/-- The greedy tail of the regex `\{[\s\S]*\}` after the opening brace:
`[\s\S]*` consumes everything and backtracks to the last `}`, so the match
continues up to and including the final `}` of the input, and fails when no
`}` is present. -/
def takeToLastClose : List Char → Option (List Char)
  | [] => none
  | c :: rest =>
    match takeToLastClose rest with
    | some t => some (c :: t)
    | none => if c = '}' then some [c] else none

/-- JS `content.match(/\{[\s\S]*\})/` (src/config.js line 144), as leftmost
then greedy matching: start positions are tried left to right; at a `{` the
greedy tail runs to the last `}` of the remainder, and if the remainder has
no `}` the start position advances. -/
def braceMatch : List Char → Option (List Char)
  | [] => none
  | c :: rest =>
    if c = '{' then
      match takeToLastClose rest with
      | some t => some (c :: t)
      | none => braceMatch rest
    else
      braceMatch rest

/-- The parse step of `analyzeWineLabel` (src/config.js lines 142-149):
parse the brace-delimited match when there is one, otherwise parse the
whole reply; `none` propagates `JSON.parse` throwing, which the handler
turns into the parse-failure 500. -/
def parseWineData (parse : String → Option Json) (content : String) : Option Json :=
  match braceMatch content.data with
  | some m => parse (String.mk m)
  | none => parse content

/-- Image-payload normalization (src/config.js line 129): prefix
`data:image/jpeg;base64,` unless the payload is already a data URI. -/
def normalizeImage (img : String) : String :=
  if jsStartsWith img "data:" then img else "data:image/jpeg;base64," ++ img

/-- The request fields `analyzeWineLabel` reads. -/
structure AnalyzeRequest where
  method : String
  authorization : Option String
  imageBase64 : Option String

/-- The `analyzeWineLabel` handler (src/config.js lines 63-162).  Returns
the response and the list of image URLs sent to the vision model. -/
def analyzeWineLabel {π : Type} (verify : String → Option π) (openaiKey : Option String)
    (modelApi : String → String → Except String String) (parse : String → Option Json)
    (req : AnalyzeRequest) : HttpResponse × List String :=
  if req.method = "OPTIONS" then
    (⟨204, corsHeaders, none⟩, [])
  else if req.method ≠ "POST" then
    (⟨405, corsHeaders, some (Json.obj [("error", Json.str "Method not allowed")])⟩, [])
  else
    match verifyAuth verify req.authorization with
    | Except.error (s, b) => (⟨s, corsHeaders, some b⟩, [])
    | Except.ok _user =>
      if !truthy openaiKey then
        (⟨500, corsHeaders, some (Json.obj [("error", Json.str "OpenAI API not configured")])⟩, [])
      else if !truthy req.imageBase64 then
        (⟨400, corsHeaders, some (Json.obj [("error", Json.str "No image provided")])⟩, [])
      else
        let url := normalizeImage (req.imageBase64.getD "")
        match modelApi (openaiKey.getD "") url with
        | Except.error e =>
          (⟨500, corsHeaders, some (Json.obj
            [("error", Json.str "Failed to analyze image"), ("message", Json.str e)])⟩, [url])
        | Except.ok content =>
          match parseWineData parse content with
          | none =>
            (⟨500, corsHeaders, some (Json.obj
              [("error", Json.str "Failed to parse wine data"), ("raw", Json.str content)])⟩, [url])
          | some wineData =>
            (⟨200, corsHeaders, some (Json.obj
              [("success", Json.bool true), ("data", wineData)])⟩, [url])

/-- The request fields `searchWineImage` reads. -/
structure SearchRequest where
  method : String
  authorization : Option String
  query : Option String
  type : Option String

/-- The category keyword of `searchWineImage` (src/config.js lines 205-208),
applied to `wineType = type || ''`. -/
def typeKeyword (wineType : String) : String :=
  if wineType = "rosé" then "rosé wine"
  else if wineType = "sparkling" then "sparkling wine champagne"
  else if wineType = "dessert" then "dessert wine"
  else if !(wineType = "") then wineType ++ " wine"
  else "wine"

/-- The `searchWineImage` handler (src/config.js lines 167-225).  Returns
the response and the list of composed search queries sent upstream. -/
def searchWineImage {π : Type} (verify : String → Option π)
    (googleApiKey googleCx : Option String)
    (searchApi : String → String → String → Except String (Option String))
    (req : SearchRequest) : HttpResponse × List String :=
  if req.method = "OPTIONS" then
    (⟨204, corsHeaders, none⟩, [])
  else if req.method ≠ "POST" then
    (⟨405, corsHeaders, some (Json.obj [("error", Json.str "Method not allowed")])⟩, [])
  else
    match verifyAuth verify req.authorization with
    | Except.error (s, b) => (⟨s, corsHeaders, some b⟩, [])
    | Except.ok _user =>
      if !truthy googleApiKey || !truthy googleCx then
        (⟨200, corsHeaders, some (Json.obj
          [("success", Json.bool true), ("imageUrl", Json.null),
           ("message", Json.str "Google Image Search not configured")])⟩, [])
      else if !truthy req.query then
        (⟨400, corsHeaders, some (Json.obj [("error", Json.str "No search query provided")])⟩, [])
      else
        let wineType := req.type.getD ""
        let searchQuery := req.query.getD "" ++ " " ++ typeKeyword wineType ++ " bottle"
        match searchApi (googleApiKey.getD "") (googleCx.getD "") searchQuery with
        | Except.error e =>
          (⟨500, corsHeaders, some (Json.obj
            [("error", Json.str "Failed to search images"), ("message", Json.str e)])⟩, [searchQuery])
        | Except.ok (some link) =>
          (⟨200, corsHeaders, some (Json.obj
            [("success", Json.bool true), ("imageUrl", Json.str link)])⟩, [searchQuery])
        | Except.ok none =>
          (⟨200, corsHeaders, some (Json.obj
            [("success", Json.bool true), ("imageUrl", Json.null),
             ("message", Json.str "No images found")])⟩, [searchQuery])

/-- The request fields the `health` handler could read (it reads none). -/
structure HealthRequest where
  method : String
  authorization : Option String

/-- The `health` handler (src/config.js lines 230-237): no auth, no
branching on the method, no upstream call (the call list is always empty);
only the origin CORS header is set. -/
def health (openaiKey googleApiKey googleCx : Option String) (_req : HealthRequest) :
    HttpResponse × List String :=
  (⟨200, [("Access-Control-Allow-Origin", "*")],
    some (Json.obj
      [("status", Json.str "ok"),
       ("openaiConfigured", Json.bool (truthy openaiKey)),
       ("googleConfigured", Json.bool (truthy googleApiKey && truthy googleCx))])⟩, [])

/-! Helper lemmas about the greedy brace-matching heuristic. -/

/-- The greedy tail fails exactly on inputs with no closing brace. -/
theorem takeToLastClose_nil_iff (s : List Char) : takeToLastClose s = none ↔ '}' ∉ s := by
  induction s with
  | nil => simp [takeToLastClose]
  | cons c rest ih =>
    simp only [takeToLastClose, List.mem_cons]
    cases htc : takeToLastClose rest with
    | some t =>
      have hmem : '}' ∈ rest := by
        by_contra hn
        exact absurd (ih.mpr hn) (by simp [htc])
      simp [hmem]
    | none =>
      have hnm : ¬ '}' ∈ rest := ih.mp htc
      by_cases hc : c = '}'
      · simp [hc]
      · simp [hc, hnm, eq_comm]

/-- Appending text without a closing brace does not change the greedy tail. -/
theorem takeToLastClose_append (b : List Char) (hb : '}' ∉ b) (t : List Char) :
    takeToLastClose (t ++ b) = takeToLastClose t := by
  induction t with
  | nil => simpa [takeToLastClose] using (takeToLastClose_nil_iff b).mpr hb
  | cons c t ih =>
    rw [List.cons_append]
    cases htc : takeToLastClose t with
    | some r => simp [takeToLastClose, ih, htc]
    | none => simp [takeToLastClose, ih, htc]

/-- On input ending in a closing brace the greedy tail keeps everything. -/
theorem takeToLastClose_concat (m : List Char) :
    takeToLastClose (m ++ ['}']) = some (m ++ ['}']) := by
  induction m with
  | nil => simp [takeToLastClose]
  | cons c m ih => simp [takeToLastClose, ih]

/-- Text without an opening brace before the match is skipped. -/
theorem braceMatch_append (a : List Char) (ha : '{' ∉ a) (t : List Char) :
    braceMatch (a ++ t) = braceMatch t := by
  induction a with
  | nil => simp
  | cons c a ih =>
    have hc : ¬ c = '{' := by
      intro h; exact ha (by simp [h])
    have ha' : '{' ∉ a := fun h => ha (by simp [h])
    simp [braceMatch, hc, ih ha']

/-- The match spans from the first opening brace to the last closing brace:
on `a ++ \x7b :: m ++ \x7d :: b` with no opening brace in `a` and no closing
brace in `b`, the match is the whole bracketed middle.  -/
theorem braceMatch_span (a m b : List Char) (ha : '{' ∉ a) (hb : '}' ∉ b) :
    braceMatch (a ++ '{' :: (m ++ '}' :: b)) = some ('{' :: (m ++ ['}'])) := by
  rw [braceMatch_append a ha]
  have h1 : m ++ '}' :: b = (m ++ ['}']) ++ b := by simp
  simp only [braceMatch, h1, takeToLastClose_append b hb, takeToLastClose_concat]
  simp

/-- String-level form of `braceMatch_span`, together with its effect on the
handler parse step. -/
theorem parseWineData_span (parse : String → Option Json) (p1 mid p2 : String)
    (h1 : '{' ∉ p1.data) (h2 : '}' ∉ p2.data) :
    braceMatch (p1 ++ "\x7b" ++ mid ++ "\x7d" ++ p2).data
      = some ('{' :: (mid.data ++ ['}'])) ∧
    parseWineData parse (p1 ++ "\x7b" ++ mid ++ "\x7d" ++ p2)
      = parse ("\x7b" ++ mid ++ "\x7d") := by
  have hdata : (p1 ++ "\x7b" ++ mid ++ "\x7d" ++ p2).data
      = p1.data ++ '{' :: (mid.data ++ '}' :: p2.data) := by
    have hb1 : ("\x7b" : String).data = ['{'] := rfl
    have hb2 : ("\x7d" : String).data = ['}'] := rfl
    simp [String.data_append, hb1, hb2]
  have hbm := hdata ▸ braceMatch_span p1.data mid.data p2.data h1 h2
  refine ⟨hbm, ?_⟩
  have hmk : String.mk ('{' :: (mid.data ++ ['}'])) = "\x7b" ++ mid ++ "\x7d" := by
    have hd : ("\x7b" ++ mid ++ "\x7d").data = '{' :: (mid.data ++ ['}']) := by
      have hb1 : ("\x7b" : String).data = ['{'] := rfl
      have hb2 : ("\x7d" : String).data = ['}'] := rfl
      simp [String.data_append, hb1, hb2]
    rw [← hd]
  simp only [parseWineData, hbm, hmk]

/-- Truthiness of an optional string is presence together with non-emptiness. -/
theorem truthy_iff (o : Option String) : truthy o = true ↔ ∃ s, o = some s ∧ s ≠ "" := by
  cases o with
  | none => simp [truthy]
  | some s => by_cases hs : s = "" <;> simp [truthy, hs]

/-- Verifiers that accept the same tokens drive `verifyAuth` to matching
outcomes: the same error response, or success on both (with possibly
different principals, which no caller inspects). -/
theorem verifyAuth_cases {π₁ π₂ : Type} (v₁ : String → Option π₁) (v₂ : String → Option π₂)
    (hv : ∀ tk, (v₁ tk).isSome = (v₂ tk).isSome) (a : Option String) :
    (∃ e, verifyAuth v₁ a = Except.error e ∧ verifyAuth v₂ a = Except.error e)
    ∨ (∃ u₁ u₂, verifyAuth v₁ a = Except.ok u₁ ∧ verifyAuth v₂ a = Except.ok u₂) := by
  cases a with
  | none => exact Or.inl ⟨(401, noTokenBody), rfl, rfl⟩
  | some h =>
    by_cases hs : jsStartsWith h "Bearer " = true
    · have hiso := hv (extractToken h)
      cases h1 : v₁ (extractToken h) with
      | some u₁ =>
        cases h2 : v₂ (extractToken h) with
        | some u₂ =>
          exact Or.inr ⟨u₁, u₂, by simp [verifyAuth, hs, h1], by simp [verifyAuth, hs, h2]⟩
        | none => rw [h1, h2] at hiso; simp at hiso
      | none =>
        cases h2 : v₂ (extractToken h) with
        | some u₂ => rw [h1, h2] at hiso; simp at hiso
        | none =>
          exact Or.inl ⟨(401, invalidTokenBody),
            by simp [verifyAuth, hs, h1], by simp [verifyAuth, hs, h2]⟩
    · have hs' : jsStartsWith h "Bearer " = false := by simpa using hs
      exact Or.inl ⟨(401, noTokenBody), by simp [verifyAuth, hs'], by simp [verifyAuth, hs']⟩

/-! Claim theorems. -/

/-- C1 (counterexample): the health endpoint answers an OPTIONS request with
status 200 and a non-empty JSON body, not 204 with an empty body as the
claim states for every endpoint - its handler has no preflight branch. -/
theorem health_options_200_not_204 :
    (health none none none ⟨"OPTIONS", none⟩).1.status = 200
    ∧ (health none none none ⟨"OPTIONS", none⟩).1.status ≠ 204
    ∧ (health none none none ⟨"OPTIONS", none⟩).1.body ≠ none := by
  refine ⟨rfl, by decide, by simp [health]⟩

/-- C1 (amended): every OPTIONS request to analyzeWineLabel or
searchWineImage, regardless of authentication state, gets status 204 with
empty body, the CORS headers present and no upstream call; the health
endpoint instead answers OPTIONS like any other method, with status 200, a
non-empty body and the CORS origin header. -/
theorem endpoints_options_behavior
    {π : Type} (verify : String → Option π) (openaiKey : Option String)
    (modelApi : String → String → Except String String) (parse : String → Option Json)
    (googleApiKey googleCx : Option String)
    (searchApi : String → String → String → Except String (Option String))
    (auth imageBase64 q t : Option String)
    (k g c : Option String) (auth2 : Option String) :
    analyzeWineLabel verify openaiKey modelApi parse ⟨"OPTIONS", auth, imageBase64⟩
      = (⟨204, corsHeaders, none⟩, [])
    ∧ searchWineImage verify googleApiKey googleCx searchApi ⟨"OPTIONS", auth, q, t⟩
      = (⟨204, corsHeaders, none⟩, [])
    ∧ ("Access-Control-Allow-Origin", "*") ∈ corsHeaders
    ∧ (health k g c ⟨"OPTIONS", auth2⟩).1.status = 200
    ∧ (health k g c ⟨"OPTIONS", auth2⟩).1.body ≠ none
    ∧ ("Access-Control-Allow-Origin", "*") ∈ (health k g c ⟨"OPTIONS", auth2⟩).1.headers := by
  refine ⟨rfl, rfl, by simp [corsHeaders], rfl, by simp [health], by simp [health]⟩

/-- C2: a POST to a protected endpoint whose Authorization header is absent
or does not start with the Bearer prefix gets 401 with the no-token body and
no upstream call; one whose extracted token the verifier rejects gets 401
with the invalid-token body and no upstream call. -/
theorem protected_endpoints_unauthorized
    {π : Type} (verify : String → Option π) (openaiKey : Option String)
    (modelApi : String → String → Except String String) (parse : String → Option Json)
    (googleApiKey googleCx : Option String)
    (searchApi : String → String → String → Except String (Option String))
    (imageBase64 q t auth : Option String) :
    ((auth = none ∨ ∃ hd, auth = some hd ∧ jsStartsWith hd "Bearer " = false) →
      analyzeWineLabel verify openaiKey modelApi parse ⟨"POST", auth, imageBase64⟩
        = (⟨401, corsHeaders, some noTokenBody⟩, [])
      ∧ searchWineImage verify googleApiKey googleCx searchApi ⟨"POST", auth, q, t⟩
        = (⟨401, corsHeaders, some noTokenBody⟩, []))
    ∧ (∀ hd, auth = some hd → jsStartsWith hd "Bearer " = true →
        verify (extractToken hd) = none →
      analyzeWineLabel verify openaiKey modelApi parse ⟨"POST", auth, imageBase64⟩
        = (⟨401, corsHeaders, some invalidTokenBody⟩, [])
      ∧ searchWineImage verify googleApiKey googleCx searchApi ⟨"POST", auth, q, t⟩
        = (⟨401, corsHeaders, some invalidTokenBody⟩, [])) := by
  constructor
  · rintro (rfl | ⟨hd, rfl, hsw⟩)
    · constructor <;> simp [analyzeWineLabel, searchWineImage, verifyAuth]
    · constructor <;> simp [analyzeWineLabel, searchWineImage, verifyAuth, hsw]
  · rintro hd rfl hsw hv
    constructor <;> simp [analyzeWineLabel, searchWineImage, verifyAuth, hsw, hv]

/-- Instantiation of C2 at concrete requests: a missing header and a header
whose token the verifier rejects both yield the 401 responses with an empty
upstream-call list. -/
theorem protected_endpoints_unauthorized_witness :
    analyzeWineLabel (fun _ : String => (none : Option Unit)) none (fun _ _ => Except.error "e")
        (fun _ => none) ⟨"POST", none, none⟩ = (⟨401, corsHeaders, some noTokenBody⟩, [])
    ∧ searchWineImage (fun _ : String => (none : Option Unit)) none none
        (fun _ _ _ => Except.error "e")
        ⟨"POST", none, none, none⟩ = (⟨401, corsHeaders, some noTokenBody⟩, []) :=
  (protected_endpoints_unauthorized (fun _ => none) none (fun _ _ => Except.error "e")
    (fun _ => none) none none (fun _ _ _ => Except.error "e") none none none none).1
    (Or.inl rfl)

/-- C3: when the model reply is a single brace-delimited JSON object
surrounded by brace-free prose, the greedy match extracts exactly the
embedded object, and the endpoint returns 200 with the parsed object as
data. -/
theorem analyze_returns_embedded_object
    {π : Type} (verify : String → Option π) (u : π) (a : String)
    (hauth : verifyAuth verify (some a) = Except.ok u)
    (key img : String) (hkey : ¬ key = "") (himg : ¬ img = "")
    (modelApi : String → String → Except String String)
    (parse : String → Option Json) (p1 mid p2 : String) (v : Json)
    (hp1 : '{' ∉ p1.data ∧ '}' ∉ p1.data)
    (hp2 : '{' ∉ p2.data ∧ '}' ∉ p2.data)
    (hmodel : modelApi key (normalizeImage img)
      = Except.ok (p1 ++ "\x7b" ++ mid ++ "\x7d" ++ p2))
    (hparse : parse ("\x7b" ++ mid ++ "\x7d") = some v) :
    analyzeWineLabel verify (some key) modelApi parse ⟨"POST", some a, some img⟩
      = (⟨200, corsHeaders, some (Json.obj [("success", Json.bool true), ("data", v)])⟩,
         [normalizeImage img]) := by
  have hpw := (parseWineData_span parse p1 mid p2 hp1.1 hp2.2).2
  simp [analyzeWineLabel, hauth, truthy, hkey, himg, hmodel, hpw, hparse]

/-- Instantiation of C3 at the reply of the spec example: the embedded
object between the prose is extracted and returned as data. -/
theorem analyze_returns_embedded_object_witness :
    analyzeWineLabel (fun _ : String => some ()) (some "sk-test")
      (fun _ _ => Except.ok ("Here is the result: " ++ "\x7b" ++
        "\"name\":\"Chateau X\",\"year\":2015" ++ "\x7d" ++ " enjoy"))
      (fun s => if s = "\x7b\"name\":\"Chateau X\",\"year\":2015\x7d"
        then some (Json.str "wineRecord") else none)
      ⟨"POST", some "Bearer tok", some "base64img"⟩
      = (⟨200, corsHeaders,
          some (Json.obj [("success", Json.bool true), ("data", Json.str "wineRecord")])⟩,
         [normalizeImage "base64img"]) :=
  analyze_returns_embedded_object (fun _ => some ()) () "Bearer tok" rfl "sk-test" "base64img"
    (by decide) (by decide)
    (fun _ _ => Except.ok ("Here is the result: " ++ "\x7b" ++
      "\"name\":\"Chateau X\",\"year\":2015" ++ "\x7d" ++ " enjoy"))
    (fun s => if s = "\x7b\"name\":\"Chateau X\",\"year\":2015\x7d"
      then some (Json.str "wineRecord") else none)
    "Here is the result: " "\"name\":\"Chateau X\",\"year\":2015" " enjoy"
    (Json.str "wineRecord") (by decide) (by decide) rfl rfl

/-- C4: for every query and type, the upstream search call receives exactly
the string query, blank, category keyword, blank, bottle; the keyword is
the special wording for rosé, sparkling and dessert, the type followed by
wine for any other non-empty type, and wine alone when the type is empty or
absent. -/
theorem search_query_composition
    {π : Type} (verify : String → Option π) (u : π) (a : String)
    (hauth : verifyAuth verify (some a) = Except.ok u)
    (gk cx : String) (hgk : ¬ gk = "") (hcx : ¬ cx = "")
    (searchApi : String → String → String → Except String (Option String))
    (q : String) (hq : ¬ q = "") (t : Option String) :
    (searchWineImage verify (some gk) (some cx) searchApi ⟨"POST", some a, some q, t⟩).2
      = [q ++ " " ++ typeKeyword (t.getD "") ++ " bottle"]
    ∧ typeKeyword "rosé" = "rosé wine"
    ∧ typeKeyword "sparkling" = "sparkling wine champagne"
    ∧ typeKeyword "dessert" = "dessert wine"
    ∧ typeKeyword "" = "wine"
    ∧ (∀ ty : String, ty ≠ "rosé" → ty ≠ "sparkling" → ty ≠ "dessert" → ty ≠ "" →
        typeKeyword ty = ty ++ " wine") := by
  refine ⟨?_, by decide, by decide, by decide, by decide, ?_⟩
  · cases hsa : searchApi gk cx (q ++ " " ++ typeKeyword (t.getD "") ++ " bottle") with
    | error e => simp [searchWineImage, hauth, truthy, hgk, hcx, hq, hsa]
    | ok o => cases o <;> simp [searchWineImage, hauth, truthy, hgk, hcx, hq, hsa]
  · intro ty h1 h2 h3 h4
    simp [typeKeyword, h1, h2, h3, h4]

/-- Instantiation of C4 at a concrete authenticated request with type red. -/
theorem search_query_composition_witness :
    (searchWineImage (fun _ : String => some ()) (some "gkey") (some "cxid")
        (fun _ _ _ => Except.ok none)
        ⟨"POST", some "Bearer tok", some "Chateau Margaux", some "red"⟩).2
      = ["Chateau Margaux" ++ " " ++ typeKeyword ((some "red").getD "") ++ " bottle"]
    ∧ typeKeyword "rosé" = "rosé wine"
    ∧ typeKeyword "sparkling" = "sparkling wine champagne"
    ∧ typeKeyword "dessert" = "dessert wine"
    ∧ typeKeyword "" = "wine"
    ∧ (∀ ty : String, ty ≠ "rosé" → ty ≠ "sparkling" → ty ≠ "dessert" → ty ≠ "" →
        typeKeyword ty = ty ++ " wine") :=
  search_query_composition (fun _ => some ()) () "Bearer tok" rfl "gkey" "cxid"
    (by decide) (by decide) (fun _ _ _ => Except.ok none) "Chateau Margaux"
    (by decide) (some "red")

/-- C5: the full responses of all three endpoints, error responses included,
are unchanged when the secret configuration values are replaced by any
others of equal presence and the verifier by one accepting the same tokens
with different principals, as long as the upstream answers stay the same;
so no response body carries the verified principal or the secrets. -/
theorem responses_independent_of_secrets
    {π₁ π₂ : Type} (v₁ : String → Option π₁) (v₂ : String → Option π₂)
    (hv : ∀ tk, (v₁ tk).isSome = (v₂ tk).isSome)
    (k₁ k₂ : Option String) (hk : truthy k₁ = truthy k₂)
    (g₁ g₂ c₁ c₂ : Option String) (hg : truthy g₁ = truthy g₂) (hc : truthy c₁ = truthy c₂)
    (m₁ m₂ : String → String → Except String String)
    (hm : ∀ url, m₁ (k₁.getD "") url = m₂ (k₂.getD "") url)
    (s₁ s₂ : String → String → String → Except String (Option String))
    (hs : ∀ sq, s₁ (g₁.getD "") (c₁.getD "") sq = s₂ (g₂.getD "") (c₂.getD "") sq)
    (parse : String → Option Json) :
    (∀ req : AnalyzeRequest,
      analyzeWineLabel v₁ k₁ m₁ parse req = analyzeWineLabel v₂ k₂ m₂ parse req)
    ∧ (∀ req : SearchRequest,
      searchWineImage v₁ g₁ c₁ s₁ req = searchWineImage v₂ g₂ c₂ s₂ req)
    ∧ (∀ req : HealthRequest, health k₁ g₁ c₁ req = health k₂ g₂ c₂ req) := by
  refine ⟨fun req => ?_, fun req => ?_, fun req => ?_⟩
  · unfold analyzeWineLabel
    rcases verifyAuth_cases v₁ v₂ hv req.authorization with ⟨e, he₁, he₂⟩ | ⟨u₁, u₂, ho₁, ho₂⟩
    · rw [he₁, he₂]
    · rw [ho₁, ho₂, hk]
      simp only [hm]
  · unfold searchWineImage
    rcases verifyAuth_cases v₁ v₂ hv req.authorization with ⟨e, he₁, he₂⟩ | ⟨u₁, u₂, ho₁, ho₂⟩
    · rw [he₁, he₂]
    · rw [ho₁, ho₂, hg, hc]
      simp only [hs]
  · simp only [health, hk, hg, hc]

/-- Instantiation of C5: swapping one set of secrets for another of equal
presence leaves every response of every endpoint unchanged. -/
theorem responses_independent_of_secrets_witness :
    (∀ req : AnalyzeRequest,
      analyzeWineLabel (fun _ : String => some ()) (some "secretA")
          (fun _ _ => Except.ok "reply") (fun _ => none) req
        = analyzeWineLabel (fun _ : String => some ()) (some "secretB")
          (fun _ _ => Except.ok "reply") (fun _ => none) req)
    ∧ (∀ req : SearchRequest,
      searchWineImage (fun _ : String => some ()) (some "gA") (some "cA")
          (fun _ _ _ => Except.ok none) req
        = searchWineImage (fun _ : String => some ()) (some "gB") (some "cB")
          (fun _ _ _ => Except.ok none) req)
    ∧ (∀ req : HealthRequest,
      health (some "secretA") (some "gA") (some "cA") req
        = health (some "secretB") (some "gB") (some "cB") req) :=
  responses_independent_of_secrets (fun _ => some ()) (fun _ => some ()) (fun _ => rfl)
    (some "secretA") (some "secretB") rfl
    (some "gA") (some "gB") (some "cA") (some "cB") rfl rfl
    (fun _ _ => Except.ok "reply") (fun _ _ => Except.ok "reply") (fun _ => rfl)
    (fun _ _ _ => Except.ok none) (fun _ _ _ => Except.ok none) (fun _ => rfl)
    (fun _ => none)

/-- C6: an authenticated POST to searchWineImage with a search credential
unset gets 200 with success true, null imageUrl and the not-configured
message, with no upstream call; the conclusion holds for every query and
type, a missing query included, because the credential check comes first. -/
theorem search_soft_degrade_unconfigured
    {π : Type} (verify : String → Option π) (u : π) (a : String)
    (hauth : verifyAuth verify (some a) = Except.ok u)
    (googleApiKey googleCx : Option String)
    (hcred : truthy googleApiKey = false ∨ truthy googleCx = false)
    (searchApi : String → String → String → Except String (Option String))
    (q t : Option String) :
    searchWineImage verify googleApiKey googleCx searchApi ⟨"POST", some a, q, t⟩
      = (⟨200, corsHeaders, some (Json.obj
          [("success", Json.bool true), ("imageUrl", Json.null),
           ("message", Json.str "Google Image Search not configured")])⟩, []) := by
  rcases hcred with hg | hc
  · simp [searchWineImage, hauth, hg]
  · simp [searchWineImage, hauth, hc]

/-- Instantiation of C6 at a request with both credentials and the query
missing: the soft-degrade 200 is returned, not the missing-query 400. -/
theorem search_soft_degrade_unconfigured_witness :
    searchWineImage (fun _ : String => some ()) none none (fun _ _ _ => Except.ok none)
      ⟨"POST", some "Bearer tok", none, none⟩
      = (⟨200, corsHeaders, some (Json.obj
          [("success", Json.bool true), ("imageUrl", Json.null),
           ("message", Json.str "Google Image Search not configured")])⟩, []) :=
  search_soft_degrade_unconfigured (fun _ => some ()) () "Bearer tok" rfl none none
    (Or.inl rfl) (fun _ _ _ => Except.ok none) none none

/-- C7: the health endpoint, for every request and with no auth step and no
upstream call (its call list is empty by definition), answers 200 with
status ok, openaiConfigured true exactly when the model API key is present
and non-empty, and googleConfigured true exactly when both search
credentials are present and non-empty. -/
theorem health_reports_config_presence
    (openaiKey googleApiKey googleCx : Option String) (req : HealthRequest) :
    health openaiKey googleApiKey googleCx req
      = (⟨200, [("Access-Control-Allow-Origin", "*")],
          some (Json.obj
            [("status", Json.str "ok"),
             ("openaiConfigured", Json.bool (truthy openaiKey)),
             ("googleConfigured", Json.bool (truthy googleApiKey && truthy googleCx))])⟩, [])
    ∧ (truthy openaiKey = true ↔ ∃ s, openaiKey = some s ∧ s ≠ "")
    ∧ ((truthy googleApiKey && truthy googleCx) = true ↔
        (∃ s, googleApiKey = some s ∧ s ≠ "") ∧ ∃ s, googleCx = some s ∧ s ≠ "") := by
  refine ⟨rfl, truthy_iff openaiKey, ?_⟩
  rw [Bool.and_eq_true, truthy_iff, truthy_iff]

/-- C8: when the brace-delimited substring, when one exists, fails to parse
and the whole reply also fails to parse, analyzeWineLabel answers 500 with
the parse-failure error and the original reply text under raw. -/
theorem analyze_parse_failure_raw
    {π : Type} (verify : String → Option π) (u : π) (a : String)
    (hauth : verifyAuth verify (some a) = Except.ok u)
    (key img : String) (hkey : ¬ key = "") (himg : ¬ img = "")
    (modelApi : String → String → Except String String) (parse : String → Option Json)
    (content : String)
    (hmodel : modelApi key (normalizeImage img) = Except.ok content)
    (hbrace : ∀ m, braceMatch content.data = some m → parse (String.mk m) = none)
    (hwhole : parse content = none) :
    analyzeWineLabel verify (some key) modelApi parse ⟨"POST", some a, some img⟩
      = (⟨500, corsHeaders, some (Json.obj
          [("error", Json.str "Failed to parse wine data"), ("raw", Json.str content)])⟩,
         [normalizeImage img]) := by
  have hpw : parseWineData parse content = none := by
    cases hbm : braceMatch content.data with
    | some m => simpa [parseWineData, hbm] using hbrace m hbm
    | none => simpa [parseWineData, hbm] using hwhole
  simp [analyzeWineLabel, hauth, truthy, hkey, himg, hmodel, hpw]

/-- Instantiation of C8 at a reply that is not JSON anywhere: the 500 carries
the original text under raw. -/
theorem analyze_parse_failure_raw_witness :
    analyzeWineLabel (fun _ : String => some ()) (some "sk-test")
      (fun _ _ => Except.ok "not json at all") (fun _ => none)
      ⟨"POST", some "Bearer tok", some "img"⟩
      = (⟨500, corsHeaders, some (Json.obj
          [("error", Json.str "Failed to parse wine data"),
           ("raw", Json.str "not json at all")])⟩, [normalizeImage "img"]) :=
  analyze_parse_failure_raw (fun _ => some ()) () "Bearer tok" rfl "sk-test" "img"
    (by decide) (by decide) (fun _ _ => Except.ok "not json at all") (fun _ => none)
    "not json at all" rfl (fun _ _ => rfl) rfl

/-- C9: on a reply written as prose with no opening brace, then an opening
brace, an arbitrary middle, a closing brace and a tail with no closing
brace - the canonical decomposition of any reply containing an opening
brace followed by a closing one - the attempted substring spans from the
first opening brace to the last closing brace of the reply, so everything
between them, later prose and closing braces inside the middle included, is
part of what the handler parses. -/
theorem brace_span_first_open_last_close (parse : String → Option Json) (p1 mid p2 : String)
    (h1 : '{' ∉ p1.data) (h2 : '}' ∉ p2.data) :
    braceMatch (p1 ++ "\x7b" ++ mid ++ "\x7d" ++ p2).data
      = some ('{' :: (mid.data ++ ['}'])) ∧
    parseWineData parse (p1 ++ "\x7b" ++ mid ++ "\x7d" ++ p2)
      = parse ("\x7b" ++ mid ++ "\x7d") :=
  parseWineData_span parse p1 mid p2 h1 h2

/-- Instantiation of C9: the middle contains a closing brace and prose after
an embedded object, all of which lands inside the parsed substring. -/
theorem brace_span_first_open_last_close_witness :
    braceMatch ("a" ++ "\x7b" ++ "x\x7d tail" ++ "\x7d" ++ " z").data
      = some ('{' :: ("x\x7d tail".data ++ ['}']))
    ∧ parseWineData (fun s => some (Json.str s)) ("a" ++ "\x7b" ++ "x\x7d tail" ++ "\x7d" ++ " z")
      = (fun s => some (Json.str s)) ("\x7b" ++ "x\x7d tail" ++ "\x7d") :=
  brace_span_first_open_last_close (fun s => some (Json.str s)) "a" "x\x7d tail" " z"
    (by decide) (by decide)

/-- C10: a header of exactly Bearer and a blank passes the prefix check, the
split extracts the empty token, and when the verifier rejects the empty
token the result is 401 with the invalid-token body - not the no-token
body - at the middleware and at both protected endpoints. -/
theorem bearer_empty_token_invalid
    {π : Type} (verify : String → Option π) (hv : verify "" = none)
    (openaiKey : Option String)
    (modelApi : String → String → Except String String) (parse : String → Option Json)
    (googleApiKey googleCx : Option String)
    (searchApi : String → String → String → Except String (Option String))
    (imageBase64 q t : Option String) :
    jsStartsWith "Bearer " "Bearer " = true
    ∧ extractToken "Bearer " = ""
    ∧ verifyAuth verify (some "Bearer ") = Except.error (401, invalidTokenBody)
    ∧ analyzeWineLabel verify openaiKey modelApi parse ⟨"POST", some "Bearer ", imageBase64⟩
        = (⟨401, corsHeaders, some invalidTokenBody⟩, [])
    ∧ searchWineImage verify googleApiKey googleCx searchApi ⟨"POST", some "Bearer ", q, t⟩
        = (⟨401, corsHeaders, some invalidTokenBody⟩, []) := by
  have hsw : jsStartsWith "Bearer " "Bearer " = true := by decide
  have he : extractToken "Bearer " = "" := by decide
  refine ⟨hsw, he, ?_, ?_, ?_⟩
  · simp [verifyAuth, hsw, he, hv]
  · simp [analyzeWineLabel, verifyAuth, hsw, he, hv]
  · simp [searchWineImage, verifyAuth, hsw, he, hv]

/-- Instantiation of C10 with a verifier rejecting every token: the header
of exactly Bearer and a blank yields the invalid-token 401 everywhere. -/
theorem bearer_empty_token_invalid_witness :
    jsStartsWith "Bearer " "Bearer " = true
    ∧ extractToken "Bearer " = ""
    ∧ verifyAuth (fun _ : String => (none : Option Unit)) (some "Bearer ")
        = Except.error (401, invalidTokenBody)
    ∧ analyzeWineLabel (fun _ : String => (none : Option Unit)) none
        (fun _ _ => Except.error "e") (fun _ => none) ⟨"POST", some "Bearer ", none⟩
        = (⟨401, corsHeaders, some invalidTokenBody⟩, [])
    ∧ searchWineImage (fun _ : String => (none : Option Unit)) none none
        (fun _ _ _ => Except.error "e") ⟨"POST", some "Bearer ", none, none⟩
        = (⟨401, corsHeaders, some invalidTokenBody⟩, []) :=
  bearer_empty_token_invalid (fun _ => none) rfl none (fun _ _ => Except.error "e")
    (fun _ => none) none none (fun _ _ _ => Except.error "e") none none none
